/-
Verification of the dev-stack utilities:
  src/dev-stack/claude_background_logger.py  (ClaudeLogger, ProjectHandler)
  src/dev-stack/spec_generator.py            (SpecGenerator, main)

The Python code is shallowly embedded: pure path/string helpers become Lean
functions on `String`; the stateful session registry and the shutdown path
become explicit state passing; fallible operations (file reads,
`Path.with_suffix`, observer teardown) are modelled with `Except`, where
`Except.error` stands for a raised Python exception.  String operations are
implemented by structural recursion over the underlying character list so
that every definition evaluates on concrete inputs.
-/
import Mathlib

namespace DevStack

/-! ## Character-list string primitives

Python `str` operations used by the two modules, modelled over `List Char`.
-/

/-- Split a character list at every occurrence of the separator character;
always returns at least one (possibly empty) piece, like Python
`s.split(sep)`. -/
def splitOnChar (sep : Char) : List Char → List (List Char)
  | [] => [[]]
  | x :: xs =>
    match splitOnChar sep xs with
    | [] => [[]]
    | h :: t => if x = sep then [] :: h :: t else (x :: h) :: t

/-- Python `s.lower()` (the code only compares ASCII keywords and
extensions, for which per-character lowering is exact). -/
def lowerStr (s : String) : String := String.mk (s.data.map Char.toLower)

/-- Python slicing `s[:n]`. -/
def pyTake (n : Nat) (s : String) : String := String.mk (s.data.take n)

/-- Python substring test `needle in haystack`. -/
def hasSubstr (needle : List Char) : List Char → Bool
  | [] => needle.isEmpty
  | c :: rest => needle.isPrefixOf (c :: rest) || hasSubstr needle rest

/-! ## Path helpers (Python `pathlib.PurePosixPath`) -/

/-- Model of Python `Path(p).parts` (POSIX flavour): the root `/` when the
path is absolute, followed by the components obtained by splitting on `/`
and dropping empty and `.` components. -/
def pathParts (p : String) : List String :=
  let comps := ((splitOnChar '/' p.data).map String.mk).filter
    (fun c => c ≠ "" && c ≠ ".")
  match p.data with
  | '/' :: _ => "/" :: comps
  | _ => comps

/-- Model of Python `Path(p).name`: the last component of `parts`, excluding
the root; `""` for the empty or root path. -/
def pathName (p : String) : String :=
  match (pathParts p).getLast? with
  | some "/" => ""
  | some c => c
  | none => ""

/-- Model of Python `Path(p).suffix` applied to a file name: the part of the
name from its last dot onwards, provided that dot is neither the first nor
the last character of the name; otherwise `""`.  (CPython: with
`i = name.rfind('.')` the suffix is `name[i:]` when `0 < i < len(name) - 1`;
here `i = name.length - lastPiece.length - 1`.) -/
def nameSuffix (name : String) : String :=
  let pieces := splitOnChar '.' name.data
  let lastPiece := (pieces.getLast?).getD []
  if pieces.length ≥ 2 && lastPiece ≠ [] &&
      name.data.length > lastPiece.length + 1 then
    String.mk ('.' :: lastPiece)
  else
    ""

/-- `Path(p).suffix` for a whole path. -/
def pathSuffix (p : String) : String := nameSuffix (pathName p)

/-- Model of Python `Path(p).with_suffix(suffix)` (CPython `pathlib`):
raises `ValueError` when the suffix contains the separator, when it is
non-empty but does not start with a dot, when it is a lone dot, or when the
path has no name; otherwise replaces the name's current suffix (or appends
when there is none).  The success branch rebuilds the path by replacing its
final name component. -/
def with_suffix (p : String) (suffix : String) : Except String String :=
  if suffix.data.contains '/' then
    .error ("Invalid suffix " ++ suffix)
  else if (suffix ≠ "" && !(match suffix.data with
            | '.' :: _ => true
            | _ => false)) || suffix = "." then
    .error ("Invalid suffix " ++ suffix)
  else
    let name := pathName p
    if name = "" then
      .error (p ++ " has an empty name")
    else
      let old_suffix := nameSuffix name
      let new_name :=
        if old_suffix = "" then name ++ suffix
        else pyTake (name.length - old_suffix.length) name ++ suffix
      .ok (pyTake (p.length - name.length) p ++ new_name)

end DevStack

namespace DevStack

/-! ## ProjectHandler: ignore filter (claude_background_logger.py 217-237) -/

/-- The fixed ignore set `ProjectHandler.ignore_patterns` (lines 217-220). -/
def ignore_patterns : List String :=
  ["node_modules", ".git", "__pycache__", ".vscode", ".idea", "dist", "build", ".next"]

/-- `ProjectHandler._should_ignore` (lines 234-237):
`path_parts = Path(file_path).parts` and
`any(ignore in path_parts for ignore in self.ignore_patterns)`. -/
def should_ignore (file_path : String) : Bool :=
  ignore_patterns.any (fun ignore => (pathParts file_path).contains ignore)

/-! ## ProjectHandler: activity recording (claude_background_logger.py 239-283) -/

/-- The recognized text-like extension set of `log_file_change`
(lines 267-268). -/
def text_extensions : List String :=
  [".py", ".js", ".ts", ".tsx", ".md", ".txt", ".json",
   ".yaml", ".yml", ".html", ".css", ".sql"]

/-- The content part of one activity entry appended by `log_file_change`
(after the `### action: rel_path` / `**Time:**` header, before `---`). -/
inductive EmbeddedContent where
  /-- the file content embedded verbatim in a fenced block -/
  | verbatim (content : String)
  /-- content truncated with the `... (truncated)` marker, embedded in a
  fenced block -/
  | truncatedEmbed (content : String)
  /-- the `*Binary file or large file*` placeholder -/
  | binaryPlaceholder
  /-- the `*Could not read file: e*` inline note -/
  | errorNote (e : String)
  /-- no content part: the action was `DELETED` -/
  | noContent
  deriving DecidableEq, Repr

/-- `ProjectHandler.log_file_change` (lines 251-283), restricted to the
content-embedding decision for the appended entry.  The outcome of
`Path(file_path).read_text(...)` is passed in as `readResult`
(`Except.error e` standing for a raised exception); the function is total,
so an entry is always appended and no exception escapes to the caller.  The
read is only attempted when the lowercased extension belongs to
`text_extensions`; content longer than 10000 characters is cut to its first
10000 characters followed by the marker `"\n... (truncated)"`. -/
def log_file_change (action : String) (file_path : String)
    (readResult : Except String String) : EmbeddedContent :=
  if action ≠ "DELETED" then
    let file_ext := lowerStr (pathSuffix file_path)
    if file_ext ∈ text_extensions then
      match readResult with
      | .ok content =>
        if content.length > 10000 then
          .truncatedEmbed (pyTake 10000 content ++ "\n... (truncated)")
        else
          .verbatim content
      | .error e => .errorNote e
    else
      .binaryPlaceholder
  else
    .noContent

/-! ## ProjectHandler: event dispatch (claude_background_logger.py 239-249) -/

/-- The kind of a watchdog filesystem event. -/
inductive EventKind where
  | created
  | modified
  | deleted
  deriving DecidableEq, Repr

/-- A watchdog filesystem event as seen by the `on_created` / `on_modified`
/ `on_deleted` callbacks: its kind, its `is_directory` flag and its
`src_path`. -/
structure FsEvent where
  kind : EventKind
  is_directory : Bool
  src_path : String
  deriving DecidableEq, Repr

/-- The action string `log_file_change` is called with for each event
kind. -/
def actionOf : EventKind → String
  | .created => "CREATED"
  | .modified => "MODIFIED"
  | .deleted => "DELETED"

/-- One `on_created` / `on_modified` / `on_deleted` callback
(lines 239-249): an entry `(action, src_path)` is appended exactly when the
event is not a directory event and `_should_ignore` rejects the path;
otherwise nothing is appended. -/
def handleEvent (e : FsEvent) : Option (String × String) :=
  if !e.is_directory && !should_ignore e.src_path then
    some (actionOf e.kind, e.src_path)
  else
    none

/-- The sequence of activity entries appended for a sequence of delivered
events. -/
def processEvents (events : List FsEvent) : List (String × String) :=
  events.filterMap handleEvent

end DevStack

namespace DevStack

/-! ## ClaudeLogger: session registry (claude_background_logger.py 156-178)

`log_process_activity` registers a process id in `self.active_sessions`
and creates a per-session log file exactly when the id is absent; an id
already present is left untouched.  The registry dictionary preserves
insertion order, modelled as an append-only list of pids; the list of
session log files created is tracked alongside. -/

structure LoggerState where
  active_sessions : List Nat
  session_logs_created : List Nat
  deriving DecidableEq, Repr

/-- The state of a freshly constructed `ClaudeLogger`: empty registry, no
session logs. -/
def initialLoggerState : LoggerState := ⟨[], []⟩

/-- `ClaudeLogger.log_process_activity` (lines 156-178): on
`pid not in self.active_sessions`, insert it and create a session log;
otherwise do nothing. -/
def log_process_activity (s : LoggerState) (pid : Nat) : LoggerState :=
  if pid ∈ s.active_sessions then s
  else
    { active_sessions := s.active_sessions ++ [pid],
      session_logs_created := s.session_logs_created ++ [pid] }

/-- Feeding a sequence of matching process ids (over any number of scan
ticks of `monitor_claude_processes`) through `log_process_activity`. -/
def runScanTicks (s : LoggerState) (pids : List Nat) : LoggerState :=
  pids.foldl log_process_activity s

/-! ## ClaudeLogger: shutdown path (claude_background_logger.py 192-205) -/

/-- A line of the top-level session log, as far as the shutdown path is
concerned. -/
inductive LogLine where
  /-- the `**Session Ended:** <time>` summary line -/
  | sessionEnded
  /-- the `**Total Active Sessions:** <n>` line -/
  | totalActive
  /-- any other line (session start, heartbeat, watcher additions, ...) -/
  | otherLine (s : String)
  deriving DecidableEq, Repr

/-- The shutdown-relevant state of a `ClaudeLogger`: the teardown behavior
of each observer in `self.observers` (`Except.error e` standing for an
exception raised by `observer.stop()` / `observer.join()`), and the lines
of the top-level session log. -/
structure OrchestratorState where
  observers : List (Except String Unit)
  session_log : List LogLine
  deriving Repr

/-- The `for observer in self.observers: observer.stop(); observer.join()`
loop of `cleanup` (lines 196-198).  The loop body has no exception handler,
so the first raised exception propagates and the remaining observers are
not stopped. -/
def stopObservers : List (Except String Unit) → Except String Unit
  | [] => .ok ()
  | .ok () :: rest => stopObservers rest
  | .error e :: _ => .error e

/-- How many observers the `cleanup` loop actually stops before an
exception aborts it (all of them when none raises). -/
def stoppedBeforeFailure : List (Except String Unit) → Nat
  | [] => 0
  | .ok () :: rest => stoppedBeforeFailure rest + 1
  | .error _ :: _ => 0

/-- `ClaudeLogger.cleanup` (lines 192-205): stop and join every observer,
then append the `**Session Ended:**` and `**Total Active Sessions:**`
summary lines to the session log.  There is no guard against a repeated
invocation and no exception handler around the observer loop; an exception
raised during teardown propagates to the caller (`Except.error`) and the
summary lines are not written. -/
def cleanup (s : OrchestratorState) : Except String OrchestratorState :=
  match stopObservers s.observers with
  | .ok () =>
    .ok { observers := s.observers,
          session_log := s.session_log ++ [LogLine.sessionEnded, LogLine.totalActive] }
  | .error e => .error e

end DevStack

namespace DevStack

/-! ## SpecGenerator (spec_generator.py) -/

/-- The first keyword group of `_detect_project_type` (line 51). -/
def web_keywords : List String := ["resume", "ats", "job", "hiring"]

/-- The second keyword group of `_detect_project_type` (line 53). -/
def trading_keywords : List String := ["trading", "algorithm", "market", "stock"]

/-- The third keyword group of `_detect_project_type` (line 55). -/
def ai_keywords : List String := ["ai", "machine learning", "neural", "gpt"]

/-- `SpecGenerator._detect_project_type` (lines 46-58): lowercase the text,
then test the three keyword groups in order with Python's substring `in`;
first hit wins, default `general`. -/
def detect_project_type (text : String) : String :=
  let text_lower := lowerStr text
  if web_keywords.any (fun kw => hasSubstr kw.data text_lower.data) then
    "web_app"
  else if trading_keywords.any (fun kw => hasSubstr kw.data text_lower.data) then
    "trading_system"
  else if ai_keywords.any (fun kw => hasSubstr kw.data text_lower.data) then
    "ai_system"
  else
    "general"

/-- `SpecGenerator.generate_spec` (lines 246-268), tracking the data the
claims depend on: the text of the conversation file is passed in
(`open(...).read()`), the analysis selects `analysis['project_type']` and
the template `self.templates[analysis['project_type']]` — represented here
by its dictionary key — is populated and written.  The result is the output
path written together with the selected template category; when
`output_path` is `None` it is computed as
`Path(conversation_path).with_suffix('_spec.md')`, whose failure
(`ValueError`) propagates. -/
def generate_spec (conversation_path : String) (conversation_text : String)
    (output_path : Option String) : Except String (String × String) :=
  let project_type := detect_project_type conversation_text
  match output_path with
  | some out => .ok (out, project_type)
  | none =>
    (with_suffix conversation_path "_spec.md").map (fun out => (out, project_type))

set_option linter.unusedVariables false in
/-- `spec_generator.main` (lines 549-571): parse `conversation_file`,
`-o` (`--output`) and `--type`; exit `1` when the file does not exist
(existence passed in as `file_exists`); otherwise call
`generate_spec(args.conversation_file, args.output)` — note that
`args.type` (`type_arg`) is parsed with four choices but never read again —
returning exit code `0` with the written result, or `1` when generation
raises. -/
def sg_main (conversation_file : String) (file_exists : Bool)
    (conversation_text : String) (output : Option String)
    (type_arg : Option String) : Nat × Option (String × String) :=
  if !file_exists then
    (1, none)
  else
    match generate_spec conversation_file conversation_text output with
    | .ok r => (0, some r)
    | .error _ => (1, none)

end DevStack

namespace DevStack

/-! ## Helper lemmas -/

/-- `hasSubstr` decides list containment: it holds exactly when the needle
occurs contiguously inside the haystack. -/
theorem hasSubstr_iff (needle hay : List Char) :
    hasSubstr needle hay = true ↔ needle <:+: hay := by
  induction hay with
  | nil => simp [hasSubstr, List.infix_nil, List.isEmpty_iff]
  | cons c rest ih =>
    simp [hasSubstr, List.infix_cons_iff, ih, List.isPrefixOf_iff_prefix]

/-- A keyword group hits a lowered text exactly when one of its members is
a contiguous substring of it. -/
theorem keyword_any_iff (kws : List String) (cs : List Char) :
    kws.any (fun kw => hasSubstr kw.data cs) = true ↔
      ∃ kw ∈ kws, kw.data <:+: cs := by
  simp only [List.any_eq_true, hasSubstr_iff]

/-- A `log_process_activity` step preserves the registry invariant: the
session logs created are exactly the registered pids, without
duplicates. -/
theorem log_process_activity_preserves (s : LoggerState) (pid : Nat)
    (h : s.session_logs_created = s.active_sessions ∧ s.active_sessions.Nodup) :
    (log_process_activity s pid).session_logs_created
        = (log_process_activity s pid).active_sessions ∧
    (log_process_activity s pid).active_sessions.Nodup := by
  unfold log_process_activity
  by_cases hm : pid ∈ s.active_sessions
  · simpa [hm] using h
  · simp [hm, h.1, List.nodup_append, h.2]

/-- The registry invariant holds along any sequence of scan observations. -/
theorem runScanTicks_invariant (pids : List Nat) (s : LoggerState)
    (h : s.session_logs_created = s.active_sessions ∧ s.active_sessions.Nodup) :
    (runScanTicks s pids).session_logs_created
        = (runScanTicks s pids).active_sessions ∧
    (runScanTicks s pids).active_sessions.Nodup := by
  induction pids generalizing s with
  | nil => exact h
  | cons pid rest ih =>
    exact ih (log_process_activity s pid) (log_process_activity_preserves s pid h)

end DevStack

namespace DevStack

/-- **C4.** `_should_ignore` returns `true` iff some path segment of the
argument exactly equals a member of the fixed ignore set
`{node_modules, .git, __pycache__, .vscode, .idea, dist, build, .next}`;
membership is exact string equality of a segment, with no wildcard or glob
matching. -/
theorem should_ignore_iff_segment_in_ignore_set (p : String) :
    should_ignore p = true ↔ ∃ part ∈ pathParts p, part ∈ ignore_patterns := by
  unfold should_ignore
  rw [List.any_eq_true]
  constructor
  · rintro ⟨ig, hig, hmem⟩
    exact ⟨ig, List.elem_iff.mp hmem, hig⟩
  · rintro ⟨part, hpart, hin⟩
    exact ⟨part, hin, List.elem_iff.mpr hpart⟩

/-- Witness for C4: a path with a `node_modules` segment is ignored, and
the theorem recovers the matching segment from the computed result. -/
theorem should_ignore_iff_segment_in_ignore_set_witness :
    should_ignore "proj/node_modules/index.js" = true ∧
    ∃ part ∈ pathParts "proj/node_modules/index.js", part ∈ ignore_patterns :=
  ⟨by decide,
   (should_ignore_iff_segment_in_ignore_set "proj/node_modules/index.js").mp (by decide)⟩

/-- **C10.** `_detect_project_type` is a function of the input text alone
(hence deterministic) and applies a fixed precedence under case-insensitive
substring matching: any hit in `{resume, ats, job, hiring}` yields
`web_app`; otherwise any hit in `{trading, algorithm, market, stock}`
yields `trading_system`; otherwise any hit in
`{ai, machine learning, neural, gpt}` yields `ai_system`; otherwise
`general`.  A hit means the keyword occurs as a contiguous substring of the
lowercased text. -/
theorem detect_project_type_precedence (text : String) :
    ((∃ kw ∈ web_keywords, kw.data <:+: (lowerStr text).data) →
        detect_project_type text = "web_app") ∧
    ((¬ ∃ kw ∈ web_keywords, kw.data <:+: (lowerStr text).data) →
      (∃ kw ∈ trading_keywords, kw.data <:+: (lowerStr text).data) →
        detect_project_type text = "trading_system") ∧
    ((¬ ∃ kw ∈ web_keywords, kw.data <:+: (lowerStr text).data) →
      (¬ ∃ kw ∈ trading_keywords, kw.data <:+: (lowerStr text).data) →
      (∃ kw ∈ ai_keywords, kw.data <:+: (lowerStr text).data) →
        detect_project_type text = "ai_system") ∧
    ((¬ ∃ kw ∈ web_keywords, kw.data <:+: (lowerStr text).data) →
      (¬ ∃ kw ∈ trading_keywords, kw.data <:+: (lowerStr text).data) →
      (¬ ∃ kw ∈ ai_keywords, kw.data <:+: (lowerStr text).data) →
        detect_project_type text = "general") := by
  have hw := keyword_any_iff web_keywords (lowerStr text).data
  have ht := keyword_any_iff trading_keywords (lowerStr text).data
  have ha := keyword_any_iff ai_keywords (lowerStr text).data
  refine ⟨fun h => ?_, fun h1 h2 => ?_, fun h1 h2 h3 => ?_, fun h1 h2 h3 => ?_⟩ <;>
    simp only [detect_project_type]
  · rw [if_pos (hw.mpr h)]
  · rw [if_neg (fun hc => h1 (hw.mp hc)), if_pos (ht.mpr h2)]
  · rw [if_neg (fun hc => h1 (hw.mp hc)), if_neg (fun hc => h2 (ht.mp hc)),
      if_pos (ha.mpr h3)]
  · rw [if_neg (fun hc => h1 (hw.mp hc)), if_neg (fun hc => h2 (ht.mp hc)),
      if_neg (fun hc => h3 (ha.mp hc))]

/-- Witness for C10: a text containing both a trading keyword and an AI
keyword, but no web keyword, is classified `trading_system` by the second
precedence rule. -/
theorem detect_project_type_precedence_witness :
    (¬ ∃ kw ∈ web_keywords, kw.data <:+: (lowerStr "AI trading bot").data) ∧
    (∃ kw ∈ trading_keywords, kw.data <:+: (lowerStr "AI trading bot").data) ∧
    detect_project_type "AI trading bot" = "trading_system" :=
  ⟨by decide, by decide,
   (detect_project_type_precedence "AI trading bot").2.1 (by decide) (by decide)⟩

/-- **C3** (code bug in `spec_generator.main`, lines 549-571): the `--type`
option is declared with the four template categories and the help text
`Force specific project type`, but `args.type` is never read: `main` calls
`generate_spec(args.conversation_file, args.output)` and the template is
always chosen from the keyword auto-detection.  First conjunct: the parsed
`--type` value has no effect on the run at all.  Second conjunct: at the
failing input (a conversation about the stock market, forced type
`web_app`), the run still renders the `trading_system` template. -/
theorem sg_main_type_argument_ignored :
    (∀ (f : String) (ex : Bool) (text : String) (out t t' : Option String),
        sg_main f ex text out t = sg_main f ex text out t') ∧
    sg_main "conversation.txt" true "let us discuss the stock market"
        (some "out.md") (some "web_app")
      = (0, some ("out.md", "trading_system")) := by
  exact ⟨fun f ex text out t t' => rfl, by decide⟩

/-- **C2** (code bug in `SpecGenerator.generate_spec`, lines 262-263): the
default output path is computed as
`Path(conversation_path).with_suffix('_spec.md')`, but `with_suffix`
demands a suffix that starts with a dot, so this raises
`ValueError: Invalid suffix '_spec.md'` for *every* input path; when `-o`
is omitted, `generate_spec` therefore always fails and writes nothing,
instead of writing to a `_spec`-suffixed default path.  The second conjunct
evaluates the failing input end to end: `main` on an existing
`conversation.txt` without `-o` exits with code `1` and no output. -/
theorem generate_spec_default_output_always_raises :
    (∀ (conversation_path conversation_text : String),
        generate_spec conversation_path conversation_text none
          = Except.error ("Invalid suffix _spec.md")) ∧
    sg_main "conversation.txt" true "build a web app" none none = (1, none) :=
  ⟨fun _ _ => rfl, by decide⟩

/-- **C5.** For a non-delete activity record: when the lowercased extension
is in the recognized text-like set, readable content of at most 10000
characters is embedded verbatim, and longer content is embedded as exactly
its first 10000 characters followed by the truncation marker; when the
extension is unrecognized, the binary/unreadable placeholder is produced
for every read outcome. -/
theorem log_file_change_embedding_rules (action file_path : String)
    (hact : action ≠ "DELETED") :
    ((lowerStr (pathSuffix file_path) ∈ text_extensions) →
      ∀ content : String,
        (content.length ≤ 10000 →
          log_file_change action file_path (Except.ok content)
            = EmbeddedContent.verbatim content) ∧
        (10000 < content.length →
          log_file_change action file_path (Except.ok content)
            = EmbeddedContent.truncatedEmbed
                (pyTake 10000 content ++ "\n... (truncated)"))) ∧
    ((lowerStr (pathSuffix file_path) ∉ text_extensions) →
      ∀ readResult, log_file_change action file_path readResult
        = EmbeddedContent.binaryPlaceholder) := by
  refine ⟨fun hext content => ⟨fun hle => ?_, fun hgt => ?_⟩, fun hext r => ?_⟩
  · simp [log_file_change, hact, hext, Nat.not_lt.mpr hle]
  · simp [log_file_change, hact, hext, hgt]
  · simp [log_file_change, hact, hext]

/-- Witness for C5: a short `.PY` file is embedded verbatim; a `.png` file
with the same readable content still gets the placeholder. -/
theorem log_file_change_embedding_rules_witness :
    ("CREATED" ≠ "DELETED") ∧
    (lowerStr (pathSuffix "proj/app.PY") ∈ text_extensions) ∧
    log_file_change "CREATED" "proj/app.PY" (Except.ok "x = 1")
      = EmbeddedContent.verbatim "x = 1" ∧
    (lowerStr (pathSuffix "proj/logo.png") ∉ text_extensions) ∧
    log_file_change "CREATED" "proj/logo.png" (Except.ok "x = 1")
      = EmbeddedContent.binaryPlaceholder :=
  ⟨by decide, by decide,
   ((log_file_change_embedding_rules "CREATED" "proj/app.PY" (by decide)).1
      (by decide) "x = 1").1 (by decide),
   by decide,
   (log_file_change_embedding_rules "CREATED" "proj/logo.png" (by decide)).2
      (by decide) (Except.ok "x = 1")⟩

/-- **C8.** For a non-delete activity record on a recognized text-like
extension, a failed read (the `Except.error` outcome of
`Path(file_path).read_text`) is recorded as the inline
`*Could not read file: e*` note in the entry; `log_file_change` is a total
function into `EmbeddedContent`, so the exception never reaches the caller
and the watcher thread is never aborted by it. -/
theorem log_file_change_read_failure_inline (action file_path e : String)
    (hact : action ≠ "DELETED")
    (hext : lowerStr (pathSuffix file_path) ∈ text_extensions) :
    log_file_change action file_path (Except.error e)
      = EmbeddedContent.errorNote e := by
  simp [log_file_change, hact, hext]

/-- Witness for C8: a permission failure while reading a modified `.json`
file becomes an inline note. -/
theorem log_file_change_read_failure_inline_witness :
    ("MODIFIED" ≠ "DELETED") ∧
    (lowerStr (pathSuffix "src/data.json") ∈ text_extensions) ∧
    log_file_change "MODIFIED" "src/data.json"
        (Except.error "PermissionError: denied")
      = EmbeddedContent.errorNote "PermissionError: denied" :=
  ⟨by decide, by decide,
   log_file_change_read_failure_inline "MODIFIED" "src/data.json"
     "PermissionError: denied" (by decide) (by decide)⟩

/-- Counterexample to C7 as stated: a single directory-creation event on a
non-ignored path is a non-ignored event, yet the callbacks append no entry
(`on_created` requires `not event.is_directory`), so the number of entries
(0) differs from the number of non-ignored events (1). -/
theorem directory_event_entry_count_mismatch :
    processEvents
        [{ kind := EventKind.created, is_directory := true,
           src_path := "proj/newdir" }] = [] ∧
    ([{ kind := EventKind.created, is_directory := true,
        src_path := "proj/newdir" }] : List FsEvent).countP
        (fun e => !should_ignore e.src_path) = 1 := by
  exact ⟨rfl, by decide⟩

/-- **C7 (amended).** For every sequence of delivered filesystem events,
the appended activity entries are exactly one per non-ignored
*non-directory* event, in order, each carrying the action string matching
its event kind (`CREATED` / `MODIFIED` / `DELETED`); directory events and
events on ignored paths append nothing. -/
theorem processEvents_matches_nondirectory_nonignored (events : List FsEvent) :
    (processEvents events).length
        = (events.filter
            (fun e => !e.is_directory && !should_ignore e.src_path)).length ∧
    processEvents events
        = (events.filter
            (fun e => !e.is_directory && !should_ignore e.src_path)).map
            (fun e => (actionOf e.kind, e.src_path)) := by
  have key : processEvents events
      = (events.filter
          (fun e => !e.is_directory && !should_ignore e.src_path)).map
          (fun e => (actionOf e.kind, e.src_path)) := by
    induction events with
    | nil => rfl
    | cons e rest ih =>
      cases hcond : (!e.is_directory && !should_ignore e.src_path) with
      | true =>
        simp only [processEvents, List.filterMap_cons, List.filter_cons,
          hcond] at ih ⊢
        simp [handleEvent, hcond, ih]
      | false =>
        simp only [processEvents, List.filterMap_cons, List.filter_cons,
          hcond] at ih ⊢
        simp [handleEvent, hcond, ih]
  exact ⟨by rw [key, List.length_map], key⟩

/-- **C6.** Sessions are registered idempotently: starting from a fresh
registry, any sequence of scan-tick observations creates at most one
session log per process id; an id already in `active_sessions` leaves the
state completely unchanged (zero registry or log writes), and a new id adds
exactly one registry entry and one session log. -/
theorem session_registry_at_most_one_session_per_pid
    (pids : List Nat) (pid : Nat) (s : LoggerState) :
    (runScanTicks initialLoggerState pids).session_logs_created.count pid ≤ 1 ∧
    (pid ∈ s.active_sessions → log_process_activity s pid = s) ∧
    (pid ∉ s.active_sessions →
      log_process_activity s pid
        = { active_sessions := s.active_sessions ++ [pid],
            session_logs_created := s.session_logs_created ++ [pid] }) := by
  refine ⟨?_, fun hm => by simp [log_process_activity, hm],
    fun hm => by simp [log_process_activity, hm]⟩
  have h := runScanTicks_invariant pids initialLoggerState ⟨rfl, List.nodup_nil⟩
  rw [h.1]
  exact List.nodup_iff_count_le_one.mp h.2 pid

/-- Witness for C6: observing pid 7 on three consecutive ticks creates one
session log; the first observation writes it, the second leaves the state
unchanged. -/
theorem session_registry_at_most_one_session_per_pid_witness :
    (runScanTicks initialLoggerState [7, 7, 7]).session_logs_created.count 7 ≤ 1 ∧
    ((7 : Nat) ∉ initialLoggerState.active_sessions) ∧
    log_process_activity initialLoggerState 7
      = { active_sessions := [7], session_logs_created := [7] } ∧
    ((7 : Nat) ∈ (log_process_activity initialLoggerState 7).active_sessions) ∧
    log_process_activity (log_process_activity initialLoggerState 7) 7
      = log_process_activity initialLoggerState 7 :=
  ⟨(session_registry_at_most_one_session_per_pid [7, 7, 7] 7 initialLoggerState).1,
   by decide,
   (session_registry_at_most_one_session_per_pid [] 7 initialLoggerState).2.2
     (by decide),
   by decide,
   (session_registry_at_most_one_session_per_pid [] 7
      (log_process_activity initialLoggerState 7)).2.1 (by decide)⟩

/-- **C1** (code bug in `ClaudeLogger.cleanup`, lines 192-205): `cleanup`
has no guard against repeated invocation, so invoking the shutdown path
twice in succession (signal handler plus a second trigger) appends the
`**Session Ended:**` summary line twice — the run evaluates the code at the
failing input (no observers, fresh session log) and counts two
`sessionEnded` lines where the claim requires exactly one. -/
theorem cleanup_twice_appends_two_session_ended :
    ((cleanup ⟨[], []⟩).bind cleanup).map
        (fun s => s.session_log.count LogLine.sessionEnded)
      = Except.ok 2 ∧
    (cleanup ⟨[], []⟩).bind cleanup
      = Except.ok ⟨[], [LogLine.sessionEnded, LogLine.totalActive,
                        LogLine.sessionEnded, LogLine.totalActive]⟩ :=
  ⟨rfl, rfl⟩

/-- **C9** (code bug in `ClaudeLogger.cleanup`, lines 196-198): the
`observer.stop(); observer.join()` loop has no exception handler, so an
exception raised while stopping one watcher propagates out of `cleanup`:
with three observers whose second raises, only the first is stopped, the
third is never reached, and the `**Session Ended:**` summary is never
written — the teardown failure is fatal to the shutdown path rather than
logged and absorbed. -/
theorem cleanup_teardown_exception_propagates :
    cleanup { observers := [Except.ok (), Except.error "RuntimeError", Except.ok ()],
              session_log := [LogLine.otherLine "session start"] }
      = Except.error "RuntimeError" ∧
    stoppedBeforeFailure
        [Except.ok (), Except.error "RuntimeError", Except.ok ()] = 1 :=
  ⟨rfl, rfl⟩

end DevStack
